import Mathlib

/-!
# gbox `core/mesh.c`: the mesh container

A shallow embedding of `gb_mesh_init`, `gb_mesh_exit` and `gb_mesh_clear`
(`src/gbox/core/mesh.c`).  The three entity lists (`impl/mesh_edge.h`,
`impl/mesh_face.h`, `impl/mesh_vertex.h`) are collaborators whose bodies are
not part of the file; they are modelled from their contract.  Every call that
the mesh issues on a list is recorded in a chronological trace, so that
statements about *which* list operations run, and in which order, can be made.

Pointers are `Option`s: `none` is `tb_null`.  `tb_assert_and_check_break (x)`
is read as `if (!x) break;`.
-/

namespace GBox

/-! ## Data model -/

/-- A non-null entity reference (`gb_mesh_vertex_ref_t`, `gb_mesh_face_ref_t`,
`gb_mesh_edge_ref_t`). -/
abbrev Handle := Nat

/-- The item description `tb_item_func_t` handed to a list constructor; the
mesh never looks inside it. -/
abbrev ItemFunc := Nat

/-- The three entity lists of a mesh. -/
inductive Kind
  | edge
  | face
  | vertex
deriving DecidableEq, Repr

/-- The four connectivity fields of an edge. -/
inductive Field
  | org
  | dst
  | lface
  | rface
deriving DecidableEq, Repr

/-- Modelled from the spec: the edge entity of `impl/mesh_edge.h`, reduced to
its four mutable cross references (origin, destination, left face, right
face); `none` is an unset (zero-initialised) reference. -/
structure Edge where
  org : Option Handle
  dst : Option Handle
  lface : Option Handle
  rface : Option Handle
deriving DecidableEq, Repr

/-- Modelled from the spec: an entity list (pool) of `impl/mesh_*.h`.  It
remembers the item description it was constructed with and owns the live
entities, newest first, each under its handle. -/
structure EntityList (α : Type) where
  func : ItemFunc
  items : List (Handle × α)
deriving DecidableEq, Repr

abbrev EdgeList := EntityList Edge
abbrev FaceList := EntityList Unit
abbrev VertexList := EntityList Unit

/-- One call issued by the mesh, as seen from outside.
* `list_make k present res`: make on list `k`; `present` tells whether the list
  pointer was non-null, `res` is what the call returned.
* `list_kill k present h live`: kill of `h` on list `k`; `live` tells whether
  `h` was live in that list when the call was issued.
* `list_exit k count`: list `k` handed to its teardown while holding `count`
  live entities. -/
inductive Event
  | malloc (ok : Bool)
  | list_init (k : Kind) (func : ItemFunc) (ok : Bool)
  | list_clear (k : Kind)
  | list_make (k : Kind) (present : Bool) (res : Option Handle)
  | list_kill (k : Kind) (present : Bool) (h : Handle) (live : Bool)
  | edge_set (f : Field) (edge : Handle) (ref : Handle)
  | list_exit (k : Kind) (count : Nat)
  | free
deriving DecidableEq, Repr

/-! ## The entity lists (contract of §4.1, §4.2) -/

/-- Modelled from the spec: `gb_mesh_*_list_init`, absent from the sources.
Construction either fails (AllocationError, `ok = false`, a null list) or
yields an empty list that remembers its item description. -/
def EntityList.init {α : Type} (func : ItemFunc) (ok : Bool) : Option (EntityList α) :=
  if ok then some { func := func, items := [] } else none

/-- Modelled from the spec: `gb_mesh_*_list_clear`, absent from the sources:
kills every live entity, the list stays usable. -/
def EntityList.clear {α : Type} (l : EntityList α) : EntityList α :=
  { l with items := [] }

/-- Modelled from the spec: `gb_mesh_*_list_make`, absent from the sources.
`answer` is what the allocator behind the list decides: `some h` is a newly
allocated entity, handed out zero-initialised (`zero`) under handle `h`;
`none` is resource exhaustion.  A null list owns no storage and yields
`tb_null`. -/
def EntityList.make {α : Type} (zero : α) (list : Option (EntityList α))
    (answer : Option Handle) : Option (EntityList α) × Option Handle :=
  match list with
  | none => (none, none)
  | some l =>
    match answer with
    | some h => (some { l with items := (h, zero) :: l.items }, some h)
    | none => (some l, none)

/-- Whether `h` is live in the list. -/
def EntityList.live {α : Type} (list : Option (EntityList α)) (h : Handle) : Bool :=
  match list with
  | some l => l.items.any (fun x => x.1 == h)
  | none => false

/-- Number of live entities of a list (`0` for a null list). -/
def EntityList.count {α : Type} (list : Option (EntityList α)) : Nat :=
  match list with
  | some l => l.items.length
  | none => 0

/-- Modelled from the spec: `gb_mesh_*_list_kill`, absent from the sources:
releases the entity under `h`. -/
def EntityList.kill {α : Type} (list : Option (EntityList α)) (h : Handle) :
    Option (EntityList α) :=
  match list with
  | some l => some { l with items := l.items.filter (fun x => x.1 != h) }
  | none => none

/-- Unconditional overwrite of the entity stored under `h`. -/
def EntityList.update {α : Type} (list : Option (EntityList α)) (h : Handle) (g : α → α) :
    Option (EntityList α) :=
  match list with
  | some l => some { l with items := l.items.map (fun x => if x.1 = h then (x.1, g x.2) else x) }
  | none => none

/-- The zero-initialised edge. -/
def Edge.zero : Edge := { org := none, dst := none, lface := none, rface := none }

/-- Modelled from the spec: `gb_mesh_edge_org_set` (§4.2), unconditional
overwrite of the origin of `edge`. -/
def gb_mesh_edge_org_set (edges : Option EdgeList) (edge vertex : Handle) : Option EdgeList :=
  EntityList.update edges edge (fun e => { e with org := some vertex })

/-- Modelled from the spec: `gb_mesh_edge_dst_set` (§4.2). -/
def gb_mesh_edge_dst_set (edges : Option EdgeList) (edge vertex : Handle) : Option EdgeList :=
  EntityList.update edges edge (fun e => { e with dst := some vertex })

/-- Modelled from the spec: `gb_mesh_edge_lface_set` (§4.2). -/
def gb_mesh_edge_lface_set (edges : Option EdgeList) (edge face : Handle) : Option EdgeList :=
  EntityList.update edges edge (fun e => { e with lface := some face })

/-- Modelled from the spec: `gb_mesh_edge_rface_set` (§4.2). -/
def gb_mesh_edge_rface_set (edges : Option EdgeList) (edge face : Handle) : Option EdgeList :=
  EntityList.update edges edge (fun e => { e with rface := some face })

/-! ## The mesh -/

/-- The mesh impl type `gb_mesh_impl_t`: three list pointers. -/
structure gb_mesh_impl_t where
  edges : Option EdgeList
  faces : Option FaceList
  vertices : Option VertexList
deriving DecidableEq, Repr

/-- The answers of the allocators to the (at most) four makes of one
`gb_mesh_clear` call; an answer is only consulted if its make is issued. -/
structure Alloc where
  vertex : Option Handle
  lface : Option Handle
  rface : Option Handle
  edge : Option Handle
deriving DecidableEq, Repr

/-- The locals of `gb_mesh_clear` together with the object behind `impl` and
the calls issued so far. -/
structure ClearFrame where
  impl : gb_mesh_impl_t
  trace : List Event
  ok : Bool
  edge : Option Handle
  lface : Option Handle
  rface : Option Handle
  vertex : Option Handle
deriving DecidableEq, Repr

/-- `if (impl->edges) gb_mesh_edge_list_clear(impl->edges);` -/
def ClearFrame.clear_edges (f : ClearFrame) : ClearFrame :=
  match f.impl.edges with
  | some l => { f with impl := { f.impl with edges := some l.clear },
                       trace := f.trace ++ [Event.list_clear Kind.edge] }
  | none => f

/-- `if (impl->faces) gb_mesh_face_list_clear(impl->faces);` -/
def ClearFrame.clear_faces (f : ClearFrame) : ClearFrame :=
  match f.impl.faces with
  | some l => { f with impl := { f.impl with faces := some l.clear },
                       trace := f.trace ++ [Event.list_clear Kind.face] }
  | none => f

/-- `if (impl->vertices) gb_mesh_vertex_list_clear(impl->vertices);` -/
def ClearFrame.clear_vertices (f : ClearFrame) : ClearFrame :=
  match f.impl.vertices with
  | some l => { f with impl := { f.impl with vertices := some l.clear },
                       trace := f.trace ++ [Event.list_clear Kind.vertex] }
  | none => f

/-- `vertex = gb_mesh_vertex_list_make(impl->vertices);` -/
def ClearFrame.make_vertex (f : ClearFrame) (answer : Option Handle) : ClearFrame :=
  let r := EntityList.make () f.impl.vertices answer
  { f with impl := { f.impl with vertices := r.1 }, vertex := r.2,
           trace := f.trace ++ [Event.list_make Kind.vertex f.impl.vertices.isSome r.2] }

/-- `lface = gb_mesh_face_list_make(impl->faces);` -/
def ClearFrame.make_lface (f : ClearFrame) (answer : Option Handle) : ClearFrame :=
  let r := EntityList.make () f.impl.faces answer
  { f with impl := { f.impl with faces := r.1 }, lface := r.2,
           trace := f.trace ++ [Event.list_make Kind.face f.impl.faces.isSome r.2] }

/-- `rface = gb_mesh_face_list_make(impl->faces);` -/
def ClearFrame.make_rface (f : ClearFrame) (answer : Option Handle) : ClearFrame :=
  let r := EntityList.make () f.impl.faces answer
  { f with impl := { f.impl with faces := r.1 }, rface := r.2,
           trace := f.trace ++ [Event.list_make Kind.face f.impl.faces.isSome r.2] }

/-- `edge = gb_mesh_edge_list_make(impl->edges);` -/
def ClearFrame.make_edge (f : ClearFrame) (answer : Option Handle) : ClearFrame :=
  let r := EntityList.make Edge.zero f.impl.edges answer
  { f with impl := { f.impl with edges := r.1 }, edge := r.2,
           trace := f.trace ++ [Event.list_make Kind.edge f.impl.edges.isSome r.2] }

/-- The four setter calls of lines 168-171, on the non-null `edge`, `vertex`,
`lface`, `rface`. -/
def ClearFrame.connect (f : ClearFrame) (edge vertex lface rface : Handle) : ClearFrame :=
  let e1 := gb_mesh_edge_org_set f.impl.edges edge vertex
  let e2 := gb_mesh_edge_dst_set e1 edge vertex
  let e3 := gb_mesh_edge_lface_set e2 edge lface
  let e4 := gb_mesh_edge_rface_set e3 edge rface
  { f with impl := { f.impl with edges := e4 },
           trace := f.trace ++ [Event.edge_set Field.org edge vertex,
                                Event.edge_set Field.dst edge vertex,
                                Event.edge_set Field.lface edge lface,
                                Event.edge_set Field.rface edge rface] }

/-- `if (vertex) gb_mesh_vertex_list_kill(impl->vertices, vertex); vertex = tb_null;` -/
def ClearFrame.kill_vertex (f : ClearFrame) : ClearFrame :=
  match f.vertex with
  | some v =>
    { f with impl := { f.impl with vertices := EntityList.kill f.impl.vertices v },
             vertex := none,
             trace := f.trace ++ [Event.list_kill Kind.vertex f.impl.vertices.isSome v
                                    (EntityList.live f.impl.vertices v)] }
  | none => { f with vertex := none }

/-- `if (lface) gb_mesh_face_list_kill(impl->faces, lface); lface = tb_null;` -/
def ClearFrame.kill_lface (f : ClearFrame) : ClearFrame :=
  match f.lface with
  | some v =>
    { f with impl := { f.impl with faces := EntityList.kill f.impl.faces v },
             lface := none,
             trace := f.trace ++ [Event.list_kill Kind.face f.impl.faces.isSome v
                                    (EntityList.live f.impl.faces v)] }
  | none => { f with lface := none }

/-- `if (rface) gb_mesh_face_list_kill(impl->faces, rface); rface = tb_null;` -/
def ClearFrame.kill_rface (f : ClearFrame) : ClearFrame :=
  match f.rface with
  | some v =>
    { f with impl := { f.impl with faces := EntityList.kill f.impl.faces v },
             rface := none,
             trace := f.trace ++ [Event.list_kill Kind.face f.impl.faces.isSome v
                                    (EntityList.live f.impl.faces v)] }
  | none => { f with rface := none }

/-- `if (edge) gb_mesh_edge_list_kill(impl->edges, edge); edge = tb_null;` -/
def ClearFrame.kill_edge (f : ClearFrame) : ClearFrame :=
  match f.edge with
  | some v =>
    { f with impl := { f.impl with edges := EntityList.kill f.impl.edges v },
             edge := none,
             trace := f.trace ++ [Event.list_kill Kind.edge f.impl.edges.isSome v
                                    (EntityList.live f.impl.edges v)] }
  | none => { f with edge := none }

/-- The `do { ... } while (0)` block of `gb_mesh_clear` (lines 131-176): the
three guarded list clears, then the four makes, each followed by its
`tb_assert_and_check_break`, then the four setters and `ok = tb_true`. -/
def gb_mesh_clear_body (impl : gb_mesh_impl_t) (a : Alloc) : ClearFrame :=
  let f : ClearFrame :=
    { impl := impl, trace := [], ok := false,
      edge := none, lface := none, rface := none, vertex := none }
  let f := f.clear_edges
  let f := f.clear_faces
  let f := f.clear_vertices
  let f := f.make_vertex a.vertex
  match f.vertex with
  | none => f
  | some vertex =>
    let f := f.make_lface a.lface
    match f.lface with
    | none => f
    | some lface =>
      let f := f.make_rface a.rface
      match f.rface with
      | none => f
      | some rface =>
        let f := f.make_edge a.edge
        match f.edge with
        | none => f
        | some edge =>
          let f := f.connect edge vertex lface rface
          { f with ok := true }

/-- The `if (!ok) { ... }` block of `gb_mesh_clear` (lines 178-196): the four
guarded kills, in the order vertex, left face, right face, edge. -/
def gb_mesh_clear_failed (f : ClearFrame) : ClearFrame :=
  if f.ok then f
  else
    let f := f.kill_vertex
    let f := f.kill_lface
    let f := f.kill_rface
    let f := f.kill_edge
    f

/-- What `gb_mesh_clear` leaves behind: its return value, the object behind
the mesh pointer, the calls it issued. -/
structure ClearResult where
  ok : Bool
  mesh : Option gb_mesh_impl_t
  trace : List Event
deriving DecidableEq, Repr

/-- `tb_bool_t gb_mesh_clear(gb_mesh_ref_t mesh)`. -/
def gb_mesh_clear (mesh : Option gb_mesh_impl_t) (a : Alloc) : ClearResult :=
  match mesh with
  | none => { ok := false, mesh := none, trace := [] }
  | some impl =>
    let f := gb_mesh_clear_failed (gb_mesh_clear_body impl a)
    { ok := f.ok, mesh := some f.impl, trace := f.trace }

/-- Modelled from the spec: `gb_mesh_*_list_exit`, absent from the sources
(clear, then release of the storage).  The event keeps the number of entities
the list still holds when it is handed over. -/
def EntityList.exit {α : Type} (k : Kind) (l : EntityList α) : List Event :=
  [Event.list_exit k l.items.length]

/-- What `gb_mesh_exit` leaves behind: the content of the container at
`tb_free` (`none` if there was no container) and the calls it issued. -/
structure ExitResult where
  impl : Option gb_mesh_impl_t
  trace : List Event
deriving DecidableEq, Repr

/-- `tb_void_t gb_mesh_exit(gb_mesh_ref_t mesh)`; `a` holds the allocator
answers for the `gb_mesh_clear` it starts with. -/
def gb_mesh_exit (mesh : Option gb_mesh_impl_t) (a : Alloc) : ExitResult :=
  match mesh with
  | none => { impl := none, trace := [] }
  | some impl =>
    -- clear it first (the result is dropped); `gb_mesh_clear` works in place
    let c := gb_mesh_clear (some impl) a
    let impl := c.mesh.getD impl
    let t := c.trace
    -- exit edges
    let t := match impl.edges with
      | some l => t ++ EntityList.exit Kind.edge l
      | none => t
    let impl := { impl with edges := none }
    -- exit faces
    let t := match impl.faces with
      | some l => t ++ EntityList.exit Kind.face l
      | none => t
    let impl := { impl with faces := none }
    -- exit vertices
    let t := match impl.vertices with
      | some l => t ++ EntityList.exit Kind.vertex l
      | none => t
    let impl := { impl with vertices := none }
    -- exit it
    { impl := some impl, trace := t ++ [Event.free] }

/-- The environment of one `gb_mesh_init` call: whether `tb_malloc0_type` and
each list constructor succeed when reached, the allocator answers for the
`gb_mesh_clear` of line 77, and those for the `gb_mesh_clear` inside the
`gb_mesh_exit` of line 88. -/
structure Env where
  malloc : Bool
  edges : Bool
  faces : Bool
  vertices : Bool
  clear : Alloc
  exit : Alloc
deriving DecidableEq, Repr

/-- The locals of `gb_mesh_init` after its `do { ... } while (0)` block. -/
structure InitFrame where
  ok : Bool
  impl : Option gb_mesh_impl_t
  trace : List Event
deriving DecidableEq, Repr

/-- The `do { ... } while (0)` block of `gb_mesh_init` (lines 58-82). -/
def gb_mesh_init_body (edge_func face_func vertex_func : ItemFunc) (env : Env) : InitFrame :=
  -- make mesh
  if env.malloc = false then
    { ok := false, impl := none, trace := [Event.malloc false] }
  else
    let impl : gb_mesh_impl_t := { edges := none, faces := none, vertices := none }
    let t := [Event.malloc true]
    -- init edges
    let impl := { impl with edges := EntityList.init edge_func env.edges }
    let t := t ++ [Event.list_init Kind.edge edge_func impl.edges.isSome]
    match impl.edges with
    | none => { ok := false, impl := some impl, trace := t }
    | some _ =>
      -- init faces
      let impl := { impl with faces := EntityList.init face_func env.faces }
      let t := t ++ [Event.list_init Kind.face face_func impl.faces.isSome]
      match impl.faces with
      | none => { ok := false, impl := some impl, trace := t }
      | some _ =>
        -- init vertices
        let impl := { impl with vertices := EntityList.init vertex_func env.vertices }
        let t := t ++ [Event.list_init Kind.vertex vertex_func impl.vertices.isSome]
        match impl.vertices with
        | none => { ok := false, impl := some impl, trace := t }
        | some _ =>
          -- clear the mesh first and create a single vertex-edge mesh
          let c := gb_mesh_clear (some impl) env.clear
          let impl := c.mesh.getD impl
          let t := t ++ c.trace
          if c.ok = false then { ok := false, impl := some impl, trace := t }
          else { ok := true, impl := some impl, trace := t }

/-- What `gb_mesh_init` leaves behind: the returned mesh and the calls issued. -/
structure InitResult where
  mesh : Option gb_mesh_impl_t
  trace : List Event
deriving DecidableEq, Repr

/-- `gb_mesh_ref_t gb_mesh_init(tb_item_func_t edge_func, tb_item_func_t
face_func, tb_item_func_t vertex_func)`. -/
def gb_mesh_init (edge_func face_func vertex_func : ItemFunc) (env : Env) : InitResult :=
  let f := gb_mesh_init_body edge_func face_func vertex_func env
  -- failed?
  if f.ok = false then
    match f.impl with
    | some impl =>
      let e := gb_mesh_exit (some impl) env.exit
      { mesh := none, trace := f.trace ++ e.trace }
    | none => { mesh := none, trace := f.trace }
  else { mesh := f.impl, trace := f.trace }

/-! ## Reading a trace -/

/-- The entities killed, in the order of the kill calls. -/
def kills (t : List Event) : List (Kind × Handle) :=
  t.filterMap fun ev =>
    match ev with
    | Event.list_kill k _ h _ => some (k, h)
    | _ => none

/-- The entities made (makes that returned an entity), in the order of the
make calls. -/
def made (t : List Event) : List (Kind × Handle) :=
  t.filterMap fun ev =>
    match ev with
    | Event.list_make k _ (some h) => some (k, h)
    | _ => none

/-- The list constructions attempted, in the order of the calls: the list,
the item description passed, whether a list was obtained. -/
def inits (t : List Event) : List (Kind × ItemFunc × Bool) :=
  t.filterMap fun ev =>
    match ev with
    | Event.list_init k func ok => some (k, func, ok)
    | _ => none

/-- The lists successfully constructed, in the order of the calls. -/
def constructed (t : List Event) : List Kind :=
  (inits t).filterMap fun c => if c.2.2 = true then some c.1 else none

/-- The lists handed to their teardown, each with the number of entities it
holds at that moment, in the order of the calls. -/
def handed (t : List Event) : List (Kind × Nat) :=
  t.filterMap fun ev =>
    match ev with
    | Event.list_exit k count => some (k, count)
    | _ => none

/-- The lists handed to their teardown, in the order of the calls. -/
def exits (t : List Event) : List Kind :=
  (handed t).map fun c => c.1

attribute [simp] EntityList.init EntityList.clear EntityList.make EntityList.live
  EntityList.count EntityList.kill EntityList.update Edge.zero gb_mesh_edge_org_set
  gb_mesh_edge_dst_set gb_mesh_edge_lface_set gb_mesh_edge_rface_set
  ClearFrame.clear_edges ClearFrame.clear_faces ClearFrame.clear_vertices
  ClearFrame.make_vertex ClearFrame.make_lface ClearFrame.make_rface ClearFrame.make_edge
  ClearFrame.connect ClearFrame.kill_vertex ClearFrame.kill_lface ClearFrame.kill_rface
  ClearFrame.kill_edge EntityList.exit

/-! ## Answers, meshes and ways through `gb_mesh_clear` -/

/-- The list contract on one round of answers: a make never hands out a handle
that is live in its list.  `gb_mesh_clear` empties the lists before its first
make, so the only make that meets a live entity is the one of the right face,
and the live entity it meets is the left face. -/
def Alloc.fresh (a : Alloc) : Prop :=
  match a.lface, a.rface with
  | some l, some r => r ≠ l
  | _, _ => True

instance (a : Alloc) : Decidable a.fresh := by
  unfold Alloc.fresh
  split <;> infer_instance

/-- The first make of `gb_mesh_clear` that is answered by a failure, if any:
`0` the vertex, `1` the left face, `2` the right face, `3` the edge. -/
def Alloc.first_failure (a : Alloc) : Option (Fin 4) :=
  match a.vertex, a.lface, a.rface, a.edge with
  | none, _, _, _ => some 0
  | some _, none, _, _ => some 1
  | some _, some _, none, _ => some 2
  | some _, some _, some _, none => some 3
  | some _, some _, some _, some _ => none

/-- A mesh whose three lists are constructed. -/
def full (el : EdgeList) (fl : FaceList) (vl : VertexList) : gb_mesh_impl_t :=
  { edges := some el, faces := some fl, vertices := some vl }

/-- The mesh whose lists are those of `full el fl vl`, emptied. -/
def emptied (el : EdgeList) (fl : FaceList) (vl : VertexList) : gb_mesh_impl_t :=
  { edges := some { func := el.func, items := [] },
    faces := some { func := fl.func, items := [] },
    vertices := some { func := vl.func, items := [] } }

/-- The base loop over the lists of `full el fl vl`: one vertex, two faces, one
edge that leaves and enters the vertex and separates the faces. -/
def base_loop (el : EdgeList) (fl : FaceList) (vl : VertexList) (v l r e : Handle) :
    gb_mesh_impl_t :=
  { edges := some { func := el.func,
                    items := [(e, { org := some v, dst := some v,
                                    lface := some l, rface := some r })] },
    faces := some { func := fl.func, items := [(r, ()), (l, ())] },
    vertices := some { func := vl.func, items := [(v, ())] } }

/-- The kind of a list pointer if it is non-null. -/
def present {α : Type} (k : Kind) (list : Option (EntityList α)) : List Kind :=
  match list with
  | some _ => [k]
  | none => []

/-- The list pointers of a mesh that are non-null, in the order edges, faces,
vertices. -/
def lists_of (impl : gb_mesh_impl_t) : List Kind :=
  present Kind.edge impl.edges ++ present Kind.face impl.faces ++
    present Kind.vertex impl.vertices

/-- The mesh with every list it has emptied. -/
def cleared (impl : gb_mesh_impl_t) : gb_mesh_impl_t :=
  { edges := impl.edges.map EntityList.clear,
    faces := impl.faces.map EntityList.clear,
    vertices := impl.vertices.map EntityList.clear }

/-- The guarded list clears that open `gb_mesh_clear`. -/
def clear_calls (impl : gb_mesh_impl_t) : List Event :=
  (lists_of impl).map Event.list_clear

/-- The eight ways through `gb_mesh_clear` on a non-null mesh, each with what
it returns, what it leaves in the mesh and the calls it issues.  A make on a
null list returns `tb_null` like a failed make. -/
inductive ClearPath (impl : gb_mesh_impl_t) (a : Alloc) : ClearResult → Prop
  | no_vertex_list : impl.vertices = none →
      ClearPath impl a
        { ok := false, mesh := some (cleared impl),
          trace := clear_calls impl ++ [Event.list_make Kind.vertex false none] }
  | vertex_failed : impl.vertices ≠ none → a.vertex = none →
      ClearPath impl a
        { ok := false, mesh := some (cleared impl),
          trace := clear_calls impl ++ [Event.list_make Kind.vertex true none] }
  | no_face_list (v : Handle) : impl.vertices ≠ none → a.vertex = some v →
      impl.faces = none →
      ClearPath impl a
        { ok := false, mesh := some (cleared impl),
          trace := clear_calls impl ++
            [Event.list_make Kind.vertex true (some v), Event.list_make Kind.face false none,
             Event.list_kill Kind.vertex true v true] }
  | lface_failed (v : Handle) : impl.vertices ≠ none → a.vertex = some v →
      impl.faces ≠ none → a.lface = none →
      ClearPath impl a
        { ok := false, mesh := some (cleared impl),
          trace := clear_calls impl ++
            [Event.list_make Kind.vertex true (some v), Event.list_make Kind.face true none,
             Event.list_kill Kind.vertex true v true] }
  | rface_failed (v l : Handle) : impl.vertices ≠ none → a.vertex = some v →
      impl.faces ≠ none → a.lface = some l → a.rface = none →
      ClearPath impl a
        { ok := false, mesh := some (cleared impl),
          trace := clear_calls impl ++
            [Event.list_make Kind.vertex true (some v),
             Event.list_make Kind.face true (some l), Event.list_make Kind.face true none,
             Event.list_kill Kind.vertex true v true, Event.list_kill Kind.face true l true] }
  | no_edge_list (v l r : Handle) : impl.vertices ≠ none → a.vertex = some v →
      impl.faces ≠ none → a.lface = some l → a.rface = some r → impl.edges = none →
      ClearPath impl a
        { ok := false, mesh := some (cleared impl),
          trace := clear_calls impl ++
            [Event.list_make Kind.vertex true (some v),
             Event.list_make Kind.face true (some l),
             Event.list_make Kind.face true (some r), Event.list_make Kind.edge false none,
             Event.list_kill Kind.vertex true v true, Event.list_kill Kind.face true l true,
             Event.list_kill Kind.face true r (r != l)] }
  | edge_failed (v l r : Handle) : impl.vertices ≠ none → a.vertex = some v →
      impl.faces ≠ none → a.lface = some l → a.rface = some r → impl.edges ≠ none →
      a.edge = none →
      ClearPath impl a
        { ok := false, mesh := some (cleared impl),
          trace := clear_calls impl ++
            [Event.list_make Kind.vertex true (some v),
             Event.list_make Kind.face true (some l),
             Event.list_make Kind.face true (some r), Event.list_make Kind.edge true none,
             Event.list_kill Kind.vertex true v true, Event.list_kill Kind.face true l true,
             Event.list_kill Kind.face true r (r != l)] }
  | all_made (el : EdgeList) (fl : FaceList) (vl : VertexList) (v l r e : Handle) :
      impl = full el fl vl → a = Alloc.mk (some v) (some l) (some r) (some e) →
      ClearPath impl a
        { ok := true, mesh := some (base_loop el fl vl v l r e),
          trace := clear_calls impl ++
            [Event.list_make Kind.vertex true (some v),
             Event.list_make Kind.face true (some l),
             Event.list_make Kind.face true (some r),
             Event.list_make Kind.edge true (some e),
             Event.edge_set Field.org e v, Event.edge_set Field.dst e v,
             Event.edge_set Field.lface e l, Event.edge_set Field.rface e r] }

/-! ## The start of `gb_mesh_init` -/

/-- The mesh on which `gb_mesh_init` calls `gb_mesh_clear` (line 77): three
freshly constructed, empty lists. -/
def fresh_mesh (edge_func face_func vertex_func : ItemFunc) : gb_mesh_impl_t :=
  full { func := edge_func, items := [] } { func := face_func, items := [] }
    { func := vertex_func, items := [] }

/-- The calls of `gb_mesh_init` up to and including the three successful list
constructions. -/
def init_calls (edge_func face_func vertex_func : ItemFunc) : List Event :=
  [Event.malloc true, Event.list_init Kind.edge edge_func true,
   Event.list_init Kind.face face_func true, Event.list_init Kind.vertex vertex_func true]

/-! ## Examples -/

/-- A round of answers in which every make is answered. -/
def ex_alloc : Alloc := { vertex := some 1, lface := some 2, rface := some 3, edge := some 4 }

/-- A round of answers in which the edge make fails. -/
def ex_alloc_no_edge : Alloc := { vertex := some 1, lface := some 2, rface := some 3, edge := none }

/-- An environment in which nothing fails. -/
def ex_env : Env :=
  { malloc := true, edges := true, faces := true, vertices := true,
    clear := ex_alloc, exit := ex_alloc }

/-- The base loop `gb_mesh_init 10 20 30 ex_env` returns. -/
def ex_base : gb_mesh_impl_t :=
  { edges := some { func := 10, items := [(4, { org := some 1, dst := some 1,
                                                lface := some 2, rface := some 3 })] },
    faces := some { func := 20, items := [(3, ()), (2, ())] },
    vertices := some { func := 30, items := [(1, ())] } }

/-- A mesh extended beyond the base loop: two vertices, two edges, three
faces. -/
def ex_extended : gb_mesh_impl_t :=
  { edges := some { func := 10,
                    items := [(8, { org := some 5, dst := some 1,
                                    lface := some 6, rface := some 3 }),
                              (4, { org := some 1, dst := some 5,
                                    lface := some 2, rface := some 3 })] },
    faces := some { func := 20, items := [(6, ()), (3, ()), (2, ())] },
    vertices := some { func := 30, items := [(5, ()), (1, ())] } }

/-! ## Arguments, runs and states -/

/-- The argument of `gb_mesh_init edge_func face_func vertex_func` that belongs
to a list. -/
def func_of (edge_func face_func vertex_func : ItemFunc) : Kind → ItemFunc
  | Kind.edge => edge_func
  | Kind.face => face_func
  | Kind.vertex => vertex_func

/-- The mesh after a run of `gb_mesh_clear` calls, one round of allocator
answers per call. -/
def clears (mesh : Option gb_mesh_impl_t) (rounds : List Alloc) : Option gb_mesh_impl_t :=
  rounds.foldl (fun m a => (gb_mesh_clear m a).mesh) mesh

/-- The base state: the three lists are there, the vertex list holds exactly
one vertex `V`, the face list exactly two faces `L ≠ R`, the edge list exactly
one edge, whose origin and destination are `V`, whose left face is `L` and
whose right face is `R`. -/
def is_base (impl : gb_mesh_impl_t) : Prop :=
  match impl.vertices, impl.faces, impl.edges with
  | some vl, some fl, some el =>
    match vl.items, fl.items, el.items with
    | [(V, _)], [(R, _), (L, _)], [(_, e)] =>
      L ≠ R ∧ e = { org := some V, dst := some V, lface := some L, rface := some R }
    | _, _, _ => False
  | _, _, _ => False

instance (impl : gb_mesh_impl_t) : Decidable (is_base impl) := by
  unfold is_base
  split
  · split <;> infer_instance
  · infer_instance

/-- The degenerate-empty state: the three lists are there and all are empty. -/
def is_empty (impl : gb_mesh_impl_t) : Prop :=
  impl.vertices.map (fun l => l.items) = some [] ∧
  impl.faces.map (fun l => l.items) = some [] ∧
  impl.edges.map (fun l => l.items) = some []

instance (impl : gb_mesh_impl_t) : Decidable (is_empty impl) := by
  unfold is_empty
  infer_instance

/-- Whether a reference is set and names an entity that is live in `list`. -/
def ref_live {α : Type} (list : Option (EntityList α)) (ref : Option Handle) : Bool :=
  match ref with
  | some h => EntityList.live list h
  | none => false

/-- Invariant I2: each of the four references of every live edge is set and
names an entity that is live in the vertex list, respectively the face list,
of the same mesh. -/
def refs_live (impl : gb_mesh_impl_t) : Bool :=
  match impl.edges with
  | some el =>
    el.items.all fun x =>
      ref_live impl.vertices x.2.org && ref_live impl.vertices x.2.dst &&
      ref_live impl.faces x.2.lface && ref_live impl.faces x.2.rface
  | none => true

/-- An edge with its vertex references renamed by `fv` and its face references
by `ff`. -/
def rename_edge (fv ff : Handle → Handle) (e : Edge) : Edge :=
  { org := e.org.map fv, dst := e.dst.map fv, lface := e.lface.map ff, rface := e.rface.map ff }

/-- A mesh with its handles renamed: vertices by `pv`, faces by `pf`, edges by
`pe`, the references of the edges along with the entities they name.  The
lists keep their item descriptions and the order of their entities. -/
def rename (pv pf pe : Equiv.Perm Handle) (impl : gb_mesh_impl_t) : gb_mesh_impl_t :=
  { edges := impl.edges.map fun l =>
      { func := l.func, items := l.items.map fun x => (pe x.1, rename_edge pv pf x.2) },
    faces := impl.faces.map fun l =>
      { func := l.func, items := l.items.map fun x => (pf x.1, x.2) },
    vertices := impl.vertices.map fun l =>
      { func := l.func, items := l.items.map fun x => (pv x.1, x.2) } }

/-- A second round of answers, with handles partly new and partly handed out
again. -/
def ex_alloc_again : Alloc :=
  { vertex := some 7, lface := some 3, rface := some 9, edge := some 4 }

/-- The kill precondition checked along a trace, call by call: `alive` holds
the entities made so far and not yet killed.  A kill passes if its list
pointer is non-null, the list reports the handle live, and the handle is one
that an earlier make on the same list returned and that no earlier kill
released. -/
def kills_sound_from (alive : List (Kind × Handle)) : List Event → Bool
  | [] => true
  | Event.list_make k _ (some h) :: t => kills_sound_from ((k, h) :: alive) t
  | Event.list_kill k present h live :: t =>
    present && live && decide ((k, h) ∈ alive) &&
      kills_sound_from (alive.filter fun x => decide (x ≠ (k, h))) t
  | _ :: t => kills_sound_from alive t

/-- The kill precondition along a whole trace, nothing being made before it. -/
def kills_sound (t : List Event) : Bool :=
  kills_sound_from [] t

/-- The lists cleared, in the order of the clear calls. -/
def list_clears (t : List Event) : List Kind :=
  t.filterMap fun ev =>
    match ev with
    | Event.list_clear k => some k
    | _ => none

/-- The makes attempted, in the order of the calls, each with what it
returned. -/
def make_calls (t : List Event) : List (Kind × Option Handle) :=
  t.filterMap fun ev =>
    match ev with
    | Event.list_make k _ res => some (k, res)
    | _ => none

/-- The edge references set, in the order of the setter calls. -/
def edge_sets (t : List Event) : List (Field × Handle × Handle) :=
  t.filterMap fun ev =>
    match ev with
    | Event.edge_set f e ref => some (f, e, ref)
    | _ => none

/-- The stage of `gb_mesh_clear` a call belongs to: `0` the list clears, `1`
the makes, `2` what follows the makes (setters, kills); `3` for the calls
`gb_mesh_clear` never issues. -/
def stage : Event → Nat
  | Event.list_clear _ => 0
  | Event.list_make _ _ _ => 1
  | Event.edge_set _ _ _ => 2
  | Event.list_kill _ _ _ _ => 2
  | _ => 3

/-! ## The effect of one `gb_mesh_clear` -/

/-- `gb_mesh_clear` on a non-null mesh takes one of the eight ways. -/
theorem clear_path (impl : gb_mesh_impl_t) (a : Alloc) :
    ClearPath impl a (gb_mesh_clear (some impl) a) := by
  rcases impl with ⟨el, fl, vl⟩
  rcases a with ⟨av, al, ar, ae⟩
  rcases vl with _ | vl
  · have h := @ClearPath.no_vertex_list ⟨el, fl, none⟩
      ⟨av, al, ar, ae⟩ rfl
    cases el <;> cases fl <;>
      simpa [gb_mesh_clear, gb_mesh_clear_body, gb_mesh_clear_failed, cleared, clear_calls,
        lists_of, present] using h
  rcases av with _ | v
  · have h := @ClearPath.vertex_failed ⟨el, fl, some vl⟩
      ⟨none, al, ar, ae⟩
      (by simp) rfl
    cases el <;> cases fl <;>
      simpa [gb_mesh_clear, gb_mesh_clear_body, gb_mesh_clear_failed, cleared, clear_calls,
        lists_of, present] using h
  rcases fl with _ | fl
  · have h := @ClearPath.no_face_list ⟨el, none, some vl⟩
      ⟨some v, al, ar, ae⟩ v (by simp) rfl rfl
    cases el <;>
      simpa [gb_mesh_clear, gb_mesh_clear_body, gb_mesh_clear_failed, cleared, clear_calls,
        lists_of, present] using h
  rcases al with _ | l
  · have h := @ClearPath.lface_failed ⟨el, some fl, some vl⟩
      ⟨some v, none, ar, ae⟩ v (by simp) rfl (by simp) rfl
    cases el <;>
      simpa [gb_mesh_clear, gb_mesh_clear_body, gb_mesh_clear_failed, cleared, clear_calls,
        lists_of, present] using h
  rcases ar with _ | r
  · have h := @ClearPath.rface_failed ⟨el, some fl, some vl⟩
      ⟨some v, some l, none, ae⟩ v l (by simp) rfl (by simp) rfl rfl
    cases el <;>
      simpa [gb_mesh_clear, gb_mesh_clear_body, gb_mesh_clear_failed, cleared, clear_calls,
        lists_of, present] using h
  rcases el with _ | el
  · have h := @ClearPath.no_edge_list ⟨none, some fl, some vl⟩
      ⟨some v, some l, some r, ae⟩ v l r (by simp) rfl (by simp) rfl rfl rfl
    have hb : (r != l) = !decide (r = l) := by simp [bne, BEq.beq]
    rw [hb] at h
    by_cases hrl : r = l <;>
      simpa [gb_mesh_clear, gb_mesh_clear_body, gb_mesh_clear_failed, cleared, clear_calls,
        lists_of, present, hrl] using h
  rcases ae with _ | e
  · have h := @ClearPath.edge_failed ⟨some el, some fl, some vl⟩
      ⟨some v, some l, some r, none⟩ v l r (by simp) rfl (by simp) rfl rfl (by simp) rfl
    have hb : (r != l) = !decide (r = l) := by simp [bne, BEq.beq]
    rw [hb] at h
    by_cases hrl : r = l <;>
      simpa [gb_mesh_clear, gb_mesh_clear_body, gb_mesh_clear_failed, cleared, clear_calls,
        lists_of, present, hrl] using h
  · have h := @ClearPath.all_made ⟨some el, some fl, some vl⟩
      ⟨some v, some l, some r, some e⟩ el fl vl v l r e rfl rfl
    simpa [gb_mesh_clear, gb_mesh_clear_body, gb_mesh_clear_failed, cleared, clear_calls,
      lists_of, present, base_loop] using h

/-! ## Traces of `gb_mesh_clear` -/

theorem handed_append (s t : List Event) : handed (s ++ t) = handed s ++ handed t := by
  simp [handed]

theorem exits_append (s t : List Event) : exits (s ++ t) = exits s ++ exits t := by
  simp [exits, handed_append]

theorem inits_append (s t : List Event) : inits (s ++ t) = inits s ++ inits t := by
  simp [inits]

theorem kills_append (s t : List Event) : kills (s ++ t) = kills s ++ kills t := by
  simp [kills]

theorem made_append (s t : List Event) : made (s ++ t) = made s ++ made t := by
  simp [made]

theorem constructed_append (s t : List Event) :
    constructed (s ++ t) = constructed s ++ constructed t := by
  simp [constructed, inits_append]

theorem handed_clear_calls (impl : gb_mesh_impl_t) : handed (clear_calls impl) = [] := by
  rcases impl with ⟨_ | el, _ | fl, _ | vl⟩ <;> rfl

theorem inits_clear_calls (impl : gb_mesh_impl_t) : inits (clear_calls impl) = [] := by
  rcases impl with ⟨_ | el, _ | fl, _ | vl⟩ <;> rfl

theorem kills_clear_calls (impl : gb_mesh_impl_t) : kills (clear_calls impl) = [] := by
  rcases impl with ⟨_ | el, _ | fl, _ | vl⟩ <;> rfl

theorem made_clear_calls (impl : gb_mesh_impl_t) : made (clear_calls impl) = [] := by
  rcases impl with ⟨_ | el, _ | fl, _ | vl⟩ <;> rfl

theorem lists_of_cleared (impl : gb_mesh_impl_t) : lists_of (cleared impl) = lists_of impl := by
  rcases impl with ⟨_ | el, _ | fl, _ | vl⟩ <;> rfl

/-- Whatever the mesh and the answers, `gb_mesh_clear` constructs no list,
hands none to its teardown, and leaves every list pointer as it found it
(null or not). -/
theorem clear_keeps_lists (impl : gb_mesh_impl_t) (a : Alloc) :
    handed (gb_mesh_clear (some impl) a).trace = [] ∧
    inits (gb_mesh_clear (some impl) a).trace = [] ∧
    ∃ impl1, (gb_mesh_clear (some impl) a).mesh = some impl1 ∧
      lists_of impl1 = lists_of impl := by
  have h := clear_path impl a
  generalize gb_mesh_clear (some impl) a = res at h
  cases h <;>
    simp only [handed_append, inits_append, handed_clear_calls, inits_clear_calls] <;>
    refine ⟨by rfl, by rfl, _, rfl, ?_⟩
  any_goals exact lists_of_cleared impl
  rename_i h1 h2
  subst h1
  rfl

/-- When `gb_mesh_clear` fails, the entities it kills are the entities it
made, in the order in which it made them. -/
theorem clear_kills_made (impl : gb_mesh_impl_t) (a : Alloc)
    (hfail : (gb_mesh_clear (some impl) a).ok = false) :
    kills (gb_mesh_clear (some impl) a).trace = made (gb_mesh_clear (some impl) a).trace := by
  have h := clear_path impl a
  generalize gb_mesh_clear (some impl) a = res at h hfail
  cases h <;>
    simp only [kills_append, made_append, kills_clear_calls, made_clear_calls] <;>
    first
      | rfl
      | exact Bool.noConfusion hfail

/-- On a mesh with three lists: either all four makes are answered and
`gb_mesh_clear` leaves the base loop built from the answers, or some make
fails and it leaves the three lists empty. -/
theorem clear_full (el : EdgeList) (fl : FaceList) (vl : VertexList) (a : Alloc) :
    (∃ v l r e : Handle, a = Alloc.mk (some v) (some l) (some r) (some e) ∧
        a.first_failure = none ∧
        (gb_mesh_clear (some (full el fl vl)) a).ok = true ∧
        (gb_mesh_clear (some (full el fl vl)) a).mesh = some (base_loop el fl vl v l r e) ∧
        made (gb_mesh_clear (some (full el fl vl)) a).trace
          = [(Kind.vertex, v), (Kind.face, l), (Kind.face, r), (Kind.edge, e)]) ∨
    (∃ k, a.first_failure = some k ∧
        (gb_mesh_clear (some (full el fl vl)) a).ok = false ∧
        (gb_mesh_clear (some (full el fl vl)) a).mesh = some (emptied el fl vl)) := by
  have h := clear_path (full el fl vl) a
  generalize gb_mesh_clear (some (full el fl vl)) a = res at h
  rcases a with ⟨av, al, ar, ae⟩
  cases h with
  | no_vertex_list h1 => simp [full] at h1
  | vertex_failed _ h2 =>
    simp only at h2; subst h2
    exact Or.inr ⟨0, rfl, rfl, rfl⟩
  | no_face_list v _ _ h3 => simp [full] at h3
  | lface_failed v _ h2 _ h4 =>
    simp only at h2 h4; subst h2 h4
    exact Or.inr ⟨1, rfl, rfl, rfl⟩
  | rface_failed v l _ h2 _ h4 h5 =>
    simp only at h2 h4 h5; subst h2 h4 h5
    exact Or.inr ⟨2, rfl, rfl, rfl⟩
  | no_edge_list v l r _ _ _ _ _ h6 => simp [full] at h6
  | edge_failed v l r _ h2 _ h4 h5 _ h7 =>
    simp only at h2 h4 h5 h7; subst h2 h4 h5 h7
    exact Or.inr ⟨3, rfl, rfl, rfl⟩
  | all_made el1 fl1 vl1 v l r e h1 h2 =>
    simp only [full, gb_mesh_impl_t.mk.injEq, Option.some.injEq] at h1
    obtain ⟨rfl, rfl, rfl⟩ := h1
    cases h2
    refine Or.inl ⟨v, l, r, e, rfl, rfl, rfl, rfl, ?_⟩
    simp only [made_append, made_clear_calls]
    rfl

/-! ## `gb_mesh_exit` -/

/-- What `gb_mesh_exit` does after its `gb_mesh_clear` (lines 104-117): the
guarded teardown of the three lists and the release of the container. -/
theorem exit_unfold (impl impl1 : gb_mesh_impl_t) (a : Alloc)
    (h : (gb_mesh_clear (some impl) a).mesh = some impl1) :
    (gb_mesh_exit (some impl) a).trace
      = (gb_mesh_clear (some impl) a).trace ++
          ((match impl1.edges with
            | some l => [Event.list_exit Kind.edge l.items.length]
            | none => []) ++
           (match impl1.faces with
            | some l => [Event.list_exit Kind.face l.items.length]
            | none => []) ++
           (match impl1.vertices with
            | some l => [Event.list_exit Kind.vertex l.items.length]
            | none => []) ++ [Event.free]) := by
  rcases impl1 with ⟨_ | e1, _ | f1, _ | v1⟩ <;>
    simp [gb_mesh_exit, h]

/-- On a non-null mesh `gb_mesh_exit` hands over exactly the lists whose
pointer is non-null, each once, and constructs none. -/
theorem exit_lists (impl : gb_mesh_impl_t) (a : Alloc) :
    exits (gb_mesh_exit (some impl) a).trace = lists_of impl ∧
    inits (gb_mesh_exit (some impl) a).trace = [] := by
  obtain ⟨h1, h2, impl1, h3, h4⟩ := clear_keeps_lists impl a
  rw [exit_unfold impl impl1 a h3, exits_append, inits_append, h2, ← h4]
  simp only [exits, h1]
  rcases impl1 with ⟨_ | e1, _ | f1, _ | v1⟩ <;> exact ⟨rfl, rfl⟩

/-! ## `gb_mesh_init` -/

/-- The container is not obtained: nothing else is called. -/
theorem init_no_container (edge_func face_func vertex_func : ItemFunc) (env : Env)
    (hm : env.malloc = false) :
    gb_mesh_init edge_func face_func vertex_func env
      = { mesh := none, trace := [Event.malloc false] } := by
  simp [gb_mesh_init, gb_mesh_init_body, hm]

/-- The edge list is not obtained. -/
theorem init_no_edges (edge_func face_func vertex_func : ItemFunc) (env : Env)
    (hm : env.malloc = true) (he : env.edges = false) :
    gb_mesh_init edge_func face_func vertex_func env
      = { mesh := none,
          trace := [Event.malloc true, Event.list_init Kind.edge edge_func false] ++
            (gb_mesh_exit (some { edges := none, faces := none, vertices := none })
              env.exit).trace } := by
  simp [gb_mesh_init, gb_mesh_init_body, hm, he]

/-- The face list is not obtained. -/
theorem init_no_faces (edge_func face_func vertex_func : ItemFunc) (env : Env)
    (hm : env.malloc = true) (he : env.edges = true) (hf : env.faces = false) :
    gb_mesh_init edge_func face_func vertex_func env
      = { mesh := none,
          trace := [Event.malloc true, Event.list_init Kind.edge edge_func true,
                    Event.list_init Kind.face face_func false] ++
            (gb_mesh_exit (some { edges := some { func := edge_func, items := [] },
                                  faces := none, vertices := none }) env.exit).trace } := by
  simp [gb_mesh_init, gb_mesh_init_body, hm, he, hf]

/-- The vertex list is not obtained. -/
theorem init_no_vertices (edge_func face_func vertex_func : ItemFunc) (env : Env)
    (hm : env.malloc = true) (he : env.edges = true) (hf : env.faces = true)
    (hv : env.vertices = false) :
    gb_mesh_init edge_func face_func vertex_func env
      = { mesh := none,
          trace := [Event.malloc true, Event.list_init Kind.edge edge_func true,
                    Event.list_init Kind.face face_func true,
                    Event.list_init Kind.vertex vertex_func false] ++
            (gb_mesh_exit (some { edges := some { func := edge_func, items := [] },
                                  faces := some { func := face_func, items := [] },
                                  vertices := none }) env.exit).trace } := by
  simp [gb_mesh_init, gb_mesh_init_body, hm, he, hf, hv]

/-- Container and lists are obtained: the outcome is decided by the
`gb_mesh_clear` of line 77. -/
theorem init_all_lists (edge_func face_func vertex_func : ItemFunc) (env : Env)
    (hm : env.malloc = true) (he : env.edges = true) (hf : env.faces = true)
    (hv : env.vertices = true) :
    gb_mesh_init edge_func face_func vertex_func env
      = if (gb_mesh_clear (some (fresh_mesh edge_func face_func vertex_func)) env.clear).ok
            = false then
          { mesh := none,
            trace := init_calls edge_func face_func vertex_func ++
              (gb_mesh_clear (some (fresh_mesh edge_func face_func vertex_func)) env.clear).trace
              ++ (gb_mesh_exit
                    (gb_mesh_clear (some (fresh_mesh edge_func face_func vertex_func))
                      env.clear).mesh env.exit).trace }
        else
          { mesh := (gb_mesh_clear (some (fresh_mesh edge_func face_func vertex_func))
                      env.clear).mesh,
            trace := init_calls edge_func face_func vertex_func ++
              (gb_mesh_clear (some (fresh_mesh edge_func face_func vertex_func))
                env.clear).trace } := by
  obtain ⟨-, -, impl1, h3, -⟩ :=
    clear_keeps_lists (fresh_mesh edge_func face_func vertex_func) env.clear
  simp only [fresh_mesh, full] at h3 ⊢
  simp only [gb_mesh_init, gb_mesh_init_body, hm, he, hf, hv, EntityList.init, init_calls]
  simp [h3]
  split <;> simp

/-- The lists of the mesh that `gb_mesh_init` builds, and the constructions
recorded for them. -/
theorem init_calls_lists (edge_func face_func vertex_func : ItemFunc) :
    constructed (init_calls edge_func face_func vertex_func)
      = lists_of (fresh_mesh edge_func face_func vertex_func) ∧
    exits (init_calls edge_func face_func vertex_func) = [] ∧
    inits (init_calls edge_func face_func vertex_func)
      = [(Kind.edge, edge_func, true), (Kind.face, face_func, true),
         (Kind.vertex, vertex_func, true)] :=
  ⟨rfl, rfl, rfl⟩

/-- The mesh `gb_mesh_init` returns: the one left by the `gb_mesh_clear` of
line 77 when everything before it and that call itself succeed, none
otherwise. -/
theorem init_mesh (edge_func face_func vertex_func : ItemFunc) (env : Env) :
    (gb_mesh_init edge_func face_func vertex_func env).mesh
      = if env.malloc = true ∧ env.edges = true ∧ env.faces = true ∧ env.vertices = true ∧
            (gb_mesh_clear (some (fresh_mesh edge_func face_func vertex_func)) env.clear).ok
              = true
        then (gb_mesh_clear (some (fresh_mesh edge_func face_func vertex_func)) env.clear).mesh
        else none := by
  by_cases hm : env.malloc = true
  swap
  · rw [init_no_container _ _ _ _ (by simpa using hm)]; simp [hm]
  by_cases he : env.edges = true
  swap
  · rw [init_no_edges _ _ _ _ hm (by simpa using he)]; simp [he]
  by_cases hf : env.faces = true
  swap
  · rw [init_no_faces _ _ _ _ hm he (by simpa using hf)]; simp [hf]
  by_cases hv : env.vertices = true
  swap
  · rw [init_no_vertices _ _ _ _ hm he hf (by simpa using hv)]; simp [hv]
  rw [init_all_lists _ _ _ _ hm he hf hv]
  by_cases hc :
      (gb_mesh_clear (some (fresh_mesh edge_func face_func vertex_func)) env.clear).ok = true
  · simp [hm, he, hf, hv, hc]
  · simp [hm, he, hf, hv, hc]

/-- A mesh returned by `gb_mesh_init` is the base loop over three fresh lists,
built from the four answers of the allocators. -/
theorem init_some (edge_func face_func vertex_func : ItemFunc) (env : Env)
    (impl : gb_mesh_impl_t)
    (hinit : (gb_mesh_init edge_func face_func vertex_func env).mesh = some impl) :
    ∃ v l r e : Handle, env.clear = Alloc.mk (some v) (some l) (some r) (some e) ∧
      impl = base_loop { func := edge_func, items := [] } { func := face_func, items := [] }
        { func := vertex_func, items := [] } v l r e := by
  rw [init_mesh] at hinit
  split at hinit
  · rename_i h
    rcases clear_full { func := edge_func, items := [] } { func := face_func, items := [] }
      { func := vertex_func, items := [] } env.clear with ⟨v, l, r, e, h1, -, -, h4, -⟩ | ⟨k, -, h3, -⟩
    · refine ⟨v, l, r, e, h1, ?_⟩
      rw [fresh_mesh, h4] at hinit
      exact (Option.some.inj hinit).symm
    · rw [fresh_mesh, h3] at h
      simp at h
  · cases hinit

/-- Two answered face makes of a round that respects the list contract return
different handles. -/
theorem fresh_faces (v l r e : Handle) (h : (Alloc.mk (some v) (some l) (some r) (some e)).fresh) :
    l ≠ r := by
  simp only [Alloc.fresh] at h
  exact fun hlr => h hlr.symm

/-! ## C1 -/

/-- C1: for every choice of item descriptions, if `gb_mesh_init` returns a
mesh then, the face list never handing out a handle that is live, the lists of
that mesh hold exactly one vertex `V`, exactly two faces `L ≠ R` and exactly
one edge `E`, with origin and destination of `E` equal to `V`, and left and
right face of `E` equal to `L` and `R`. -/
theorem init_establishes_base_loop (edge_func face_func vertex_func : ItemFunc) (env : Env)
    (impl : gb_mesh_impl_t)
    (hinit : (gb_mesh_init edge_func face_func vertex_func env).mesh = some impl)
    (hfresh : env.clear.fresh) :
    ∃ V L R E : Handle, L ≠ R ∧
      impl.vertices = some { func := vertex_func, items := [(V, ())] } ∧
      impl.faces = some { func := face_func, items := [(R, ()), (L, ())] } ∧
      impl.edges = some { func := edge_func,
                          items := [(E, { org := some V, dst := some V,
                                          lface := some L, rface := some R })] } ∧
      EntityList.count impl.vertices = 1 ∧ EntityList.count impl.faces = 2 ∧
      EntityList.count impl.edges = 1 := by
  obtain ⟨v, l, r, e, h1, rfl⟩ := init_some edge_func face_func vertex_func env impl hinit
  rw [h1] at hfresh
  exact ⟨v, l, r, e, fresh_faces v l r e hfresh, rfl, rfl, rfl, rfl, rfl, rfl⟩

/-- C1 at `gb_mesh_init 10 20 30` in an environment where nothing fails. -/
theorem init_establishes_base_loop_witness :
    (gb_mesh_init 10 20 30 ex_env).mesh = some ex_base ∧ ex_env.clear.fresh ∧
    ∃ V L R E : Handle, L ≠ R ∧
      ex_base.vertices = some { func := 30, items := [(V, ())] } ∧
      ex_base.faces = some { func := 20, items := [(R, ()), (L, ())] } ∧
      ex_base.edges = some { func := 10,
                             items := [(E, { org := some V, dst := some V,
                                             lface := some L, rface := some R })] } ∧
      EntityList.count ex_base.vertices = 1 ∧ EntityList.count ex_base.faces = 2 ∧
      EntityList.count ex_base.edges = 1 :=
  ⟨by decide, by decide,
    init_establishes_base_loop 10 20 30 ex_env ex_base (by decide) (by decide)⟩

/-! ## C2 -/

/-- C2: for every mesh whose three lists are constructed, whatever they hold
beforehand, if `gb_mesh_clear` returns true (the face list never handing out a
handle that is live) then afterwards the lists hold exactly one vertex `V`,
two distinct faces `L` and `R` and one edge `E` with origin and destination
`V`, left face `L` and right face `R`; these four are the entities made during
the call, so nothing that was live before is live afterwards unless its handle
was handed out again. -/
theorem clear_success_is_base_loop (el : EdgeList) (fl : FaceList) (vl : VertexList)
    (a : Alloc) (hfresh : a.fresh)
    (hok : (gb_mesh_clear (some (full el fl vl)) a).ok = true) :
    ∃ V L R E : Handle, L ≠ R ∧
      (gb_mesh_clear (some (full el fl vl)) a).mesh
        = some { edges := some { func := el.func,
                                 items := [(E, { org := some V, dst := some V,
                                                 lface := some L, rface := some R })] },
                 faces := some { func := fl.func, items := [(R, ()), (L, ())] },
                 vertices := some { func := vl.func, items := [(V, ())] } } ∧
      made (gb_mesh_clear (some (full el fl vl)) a).trace
        = [(Kind.vertex, V), (Kind.face, L), (Kind.face, R), (Kind.edge, E)] := by
  rcases clear_full el fl vl a with ⟨v, l, r, e, h1, -, -, h4, h5⟩ | ⟨k, -, h3, -⟩
  · rw [h1] at hfresh
    exact ⟨v, l, r, e, fresh_faces v l r e hfresh, h4, h5⟩
  · rw [h3] at hok
    cases hok

/-- C2 at a mesh extended beyond the base loop, every make answered. -/
theorem clear_success_is_base_loop_witness :
    ex_alloc.fresh ∧ (gb_mesh_clear (some ex_extended) ex_alloc).ok = true ∧
    ∃ V L R E : Handle, L ≠ R ∧
      (gb_mesh_clear (some ex_extended) ex_alloc).mesh
        = some { edges := some { func := 10,
                                 items := [(E, { org := some V, dst := some V,
                                                 lface := some L, rface := some R })] },
                 faces := some { func := 20, items := [(R, ()), (L, ())] },
                 vertices := some { func := 30, items := [(V, ())] } } ∧
      made (gb_mesh_clear (some ex_extended) ex_alloc).trace
        = [(Kind.vertex, V), (Kind.face, L), (Kind.face, R), (Kind.edge, E)] :=
  ⟨by decide, by decide,
    clear_success_is_base_loop
      { func := 10, items := [(8, { org := some 5, dst := some 1,
                                    lface := some 6, rface := some 3 }),
                              (4, { org := some 1, dst := some 5,
                                    lface := some 2, rface := some 3 })] }
      { func := 20, items := [(6, ()), (3, ()), (2, ())] }
      { func := 30, items := [(5, ()), (1, ())] } ex_alloc (by decide) (by decide)⟩

/-! ## C3 -/

/-- C3: for every mesh whose three lists are constructed and each of the four
makes of `gb_mesh_clear` (`k = 0` vertex, `1` left face, `2` right face, `3`
edge): if the `k`-th make is the first to fail, `gb_mesh_clear` returns false
and on return the three lists hold no entity. -/
theorem clear_failure_empties_lists (el : EdgeList) (fl : FaceList) (vl : VertexList)
    (a : Alloc) (k : Fin 4) (hk : a.first_failure = some k) :
    (gb_mesh_clear (some (full el fl vl)) a).ok = false ∧
    (gb_mesh_clear (some (full el fl vl)) a).mesh
      = some { edges := some { func := el.func, items := [] },
               faces := some { func := fl.func, items := [] },
               vertices := some { func := vl.func, items := [] } } := by
  rcases clear_full el fl vl a with ⟨v, l, r, e, -, h2, -⟩ | ⟨j, -, h3, h4⟩
  · rw [h2] at hk
    cases hk
  · exact ⟨h3, h4⟩

/-- C3 at the base loop, the edge make failing. -/
theorem clear_failure_empties_lists_witness :
    ex_alloc_no_edge.first_failure = some 3 ∧
    (gb_mesh_clear (some ex_base) ex_alloc_no_edge).ok = false ∧
    (gb_mesh_clear (some ex_base) ex_alloc_no_edge).mesh
      = some { edges := some { func := 10, items := [] },
               faces := some { func := 20, items := [] },
               vertices := some { func := 30, items := [] } } :=
  ⟨by decide,
    clear_failure_empties_lists
      { func := 10, items := [(4, { org := some 1, dst := some 1,
                                    lface := some 2, rface := some 3 })] }
      { func := 20, items := [(3, ()), (2, ())] }
      { func := 30, items := [(1, ())] } ex_alloc_no_edge 3 (by decide)⟩

/-! ## C4 -/

/-- C4, as stated, fails: when the edge make fails, the kills are issued in
the order vertex, left face, right face, which is the order of creation and
not its reverse. -/
theorem kill_order_counterexample :
    made (gb_mesh_clear (some ex_base) ex_alloc_no_edge).trace
      = [(Kind.vertex, 1), (Kind.face, 2), (Kind.face, 3)] ∧
    kills (gb_mesh_clear (some ex_base) ex_alloc_no_edge).trace
      = [(Kind.vertex, 1), (Kind.face, 2), (Kind.face, 3)] ∧
    kills (gb_mesh_clear (some ex_base) ex_alloc_no_edge).trace
      ≠ (made (gb_mesh_clear (some ex_base) ex_alloc_no_edge).trace).reverse := by
  decide

/-- C4, amended: when `gb_mesh_clear` fails, the entities created in that
attempt are killed in the order of their creation (an entity created earlier
is killed before one created later), and nothing else is killed. -/
theorem clear_kills_in_creation_order (mesh : Option gb_mesh_impl_t) (a : Alloc)
    (hfail : (gb_mesh_clear mesh a).ok = false) :
    kills (gb_mesh_clear mesh a).trace = made (gb_mesh_clear mesh a).trace := by
  cases mesh with
  | none => rfl
  | some impl => exact clear_kills_made impl a hfail

/-- C4, amended, at the base loop, the edge make failing: the kills are
vertex `1`, left face `2`, right face `3`. -/
theorem clear_kills_in_creation_order_witness :
    (gb_mesh_clear (some ex_base) ex_alloc_no_edge).ok = false ∧
    made (gb_mesh_clear (some ex_base) ex_alloc_no_edge).trace
      = [(Kind.vertex, 1), (Kind.face, 2), (Kind.face, 3)] ∧
    kills (gb_mesh_clear (some ex_base) ex_alloc_no_edge).trace
      = made (gb_mesh_clear (some ex_base) ex_alloc_no_edge).trace :=
  ⟨by decide, by decide,
    clear_kills_in_creation_order (some ex_base) ex_alloc_no_edge (by decide)⟩

/-! ## C5 -/

/-- C5, as stated, fails: `gb_mesh_exit` on the base loop, with every make of
its `gb_mesh_clear` answered, hands the edge list over holding 1 entity, the
face list holding 2 and the vertex list holding 1. -/
theorem exit_handover_counterexample :
    handed (gb_mesh_exit (some ex_base) ex_alloc).trace
      = [(Kind.edge, 1), (Kind.face, 2), (Kind.vertex, 1)] ∧
    ¬ ∀ c ∈ handed (gb_mesh_exit (some ex_base) ex_alloc).trace, c.2 = 0 := by
  decide

/-- C5, amended: for every mesh whose three lists are constructed, when
`gb_mesh_exit` runs, each list is handed to its teardown holding what the
`gb_mesh_clear` step of `gb_mesh_exit` left in it: no entity when a make of
that step failed, and the rebuilt base loop (1 edge, 2 faces, 1 vertex) when
all of them were answered. -/
theorem exit_hands_over (el : EdgeList) (fl : FaceList) (vl : VertexList) (a : Alloc) :
    handed (gb_mesh_exit (some (full el fl vl)) a).trace
      = match a.first_failure with
        | some _ => [(Kind.edge, 0), (Kind.face, 0), (Kind.vertex, 0)]
        | none => [(Kind.edge, 1), (Kind.face, 2), (Kind.vertex, 1)] := by
  obtain ⟨h1, -, -⟩ := clear_keeps_lists (full el fl vl) a
  rcases clear_full el fl vl a with ⟨v, l, r, e, -, h2, -, h4, -⟩ | ⟨k, h2, -, h4⟩
  · rw [exit_unfold _ _ a h4, handed_append, h1, h2]
    rfl
  · rw [exit_unfold _ _ a h4, handed_append, h1, h2]
    rfl

/-! ## C6 -/

/-- C6, as stated, fails: in `gb_mesh_init 10 20 30` the first argument, `10`,
is passed to the constructor of the edge list and the third, `30`, to that of
the vertex list. -/
theorem init_argument_order_counterexample :
    inits (gb_mesh_init 10 20 30 ex_env).trace
      = [(Kind.edge, 10, true), (Kind.face, 20, true), (Kind.vertex, 30, true)] ∧
    (gb_mesh_init 10 20 30 ex_env).mesh = some ex_base ∧
    ex_base.vertices.map (fun l => l.func) ≠ some 10 ∧
    ex_base.edges.map (fun l => l.func) ≠ some 30 := by
  decide

/-- C6, amended: `gb_mesh_init` takes its three item descriptions in the order
(edge, face, vertex): every list constructor it calls receives the argument of
its own list, the first for the edge list, the second for the face list, the
third for the vertex list, and the lists of a returned mesh carry them so. -/
theorem init_argument_order (edge_func face_func vertex_func : ItemFunc) (env : Env) :
    (∀ c ∈ inits (gb_mesh_init edge_func face_func vertex_func env).trace,
        c.2.1 = func_of edge_func face_func vertex_func c.1) ∧
    ∀ impl, (gb_mesh_init edge_func face_func vertex_func env).mesh = some impl →
      impl.edges.map (fun l => l.func) = some edge_func ∧
      impl.faces.map (fun l => l.func) = some face_func ∧
      impl.vertices.map (fun l => l.func) = some vertex_func := by
  constructor
  · by_cases hm : env.malloc = true
    swap
    · rw [init_no_container _ _ _ _ (by simpa using hm)]; simp [inits]
    by_cases he : env.edges = true
    swap
    · rw [init_no_edges _ _ _ _ hm (by simpa using he), inits_append, (exit_lists _ _).2]
      simp [inits, func_of]
    by_cases hf : env.faces = true
    swap
    · rw [init_no_faces _ _ _ _ hm he (by simpa using hf), inits_append, (exit_lists _ _).2]
      simp [inits, func_of]
    by_cases hv : env.vertices = true
    swap
    · rw [init_no_vertices _ _ _ _ hm he hf (by simpa using hv), inits_append,
        (exit_lists _ _).2]
      simp [inits, func_of]
    obtain ⟨-, h2, impl1, h3, -⟩ :=
      clear_keeps_lists (fresh_mesh edge_func face_func vertex_func) env.clear
    rw [init_all_lists _ _ _ _ hm he hf hv]
    split
    · simp only [inits_append, h2, h3, (exit_lists _ _).2, (init_calls_lists _ _ _).2.2]
      simp [func_of]
    · simp only [inits_append, h2, (init_calls_lists _ _ _).2.2]
      simp [func_of]
  · intro impl hinit
    obtain ⟨v, l, r, e, -, rfl⟩ := init_some edge_func face_func vertex_func env impl hinit
    exact ⟨rfl, rfl, rfl⟩

/-- C6, amended, at `gb_mesh_init 10 20 30`. -/
theorem init_argument_order_witness :
    (∀ c ∈ inits (gb_mesh_init 10 20 30 ex_env).trace, c.2.1 = func_of 10 20 30 c.1) ∧
    ∀ impl, (gb_mesh_init 10 20 30 ex_env).mesh = some impl →
      impl.edges.map (fun l => l.func) = some 10 ∧
      impl.faces.map (fun l => l.func) = some 20 ∧
      impl.vertices.map (fun l => l.func) = some 30 :=
  init_argument_order 10 20 30 ex_env

/-! ## C7 -/

/-- C7: `gb_mesh_init` returns no mesh if and only if the container allocation
fails, or the construction of one of the three lists fails, or the
`gb_mesh_clear` it calls on the three fresh lists returns false; in every other
case it returns a mesh. -/
theorem init_returns_null_iff (edge_func face_func vertex_func : ItemFunc) (env : Env) :
    (gb_mesh_init edge_func face_func vertex_func env).mesh = none ↔
      env.malloc = false ∨ env.edges = false ∨ env.faces = false ∨ env.vertices = false ∨
      (gb_mesh_clear (some (fresh_mesh edge_func face_func vertex_func)) env.clear).ok
        = false := by
  obtain ⟨-, -, impl1, h3, -⟩ :=
    clear_keeps_lists (fresh_mesh edge_func face_func vertex_func) env.clear
  rw [init_mesh, h3]
  cases env.malloc <;> cases env.edges <;> cases env.faces <;> cases env.vertices <;>
    cases (gb_mesh_clear (some (fresh_mesh edge_func face_func vertex_func)) env.clear).ok <;>
    simp

/-! ## C8 -/

/-- The kinds of a trace-derived list in which no kind occurs twice are counted
once. -/
theorem count_lists_of (impl : gb_mesh_impl_t) (k : Kind) :
    (lists_of impl).count k = if k ∈ lists_of impl then 1 else 0 := by
  rcases impl with ⟨_ | el, _ | fl, _ | vl⟩ <;> cases k <;> simp [lists_of, present]

/-- A trace without any list construction has no successful one. -/
theorem constructed_nil (t : List Event) (h : inits t = []) : constructed t = [] := by
  simp [constructed, h]

/-- C8: for every way `gb_mesh_init` can fail, the lists handed to their
teardown before it returns are exactly the lists it had constructed: each
constructed list once, and no list that was never constructed. -/
theorem init_failure_teardown (edge_func face_func vertex_func : ItemFunc) (env : Env)
    (hfail : (gb_mesh_init edge_func face_func vertex_func env).mesh = none) :
    exits (gb_mesh_init edge_func face_func vertex_func env).trace
      = constructed (gb_mesh_init edge_func face_func vertex_func env).trace ∧
    ∀ k : Kind,
      (exits (gb_mesh_init edge_func face_func vertex_func env).trace).count k
        = if k ∈ constructed (gb_mesh_init edge_func face_func vertex_func env).trace
          then 1 else 0 := by
  have key : ∃ impl : gb_mesh_impl_t,
      exits (gb_mesh_init edge_func face_func vertex_func env).trace = lists_of impl ∧
      constructed (gb_mesh_init edge_func face_func vertex_func env).trace = lists_of impl := by
    by_cases hm : env.malloc = true
    swap
    · rw [init_no_container _ _ _ _ (by simpa using hm)]
      exact ⟨⟨none, none, none⟩, rfl, rfl⟩
    by_cases he : env.edges = true
    swap
    · rw [init_no_edges _ _ _ _ hm (by simpa using he), exits_append, constructed_append,
        (exit_lists _ _).1, constructed_nil _ (exit_lists _ _).2]
      exact ⟨⟨none, none, none⟩, rfl, rfl⟩
    by_cases hf : env.faces = true
    swap
    · rw [init_no_faces _ _ _ _ hm he (by simpa using hf), exits_append, constructed_append,
        (exit_lists _ _).1, constructed_nil _ (exit_lists _ _).2]
      exact ⟨_, rfl, rfl⟩
    by_cases hv : env.vertices = true
    swap
    · rw [init_no_vertices _ _ _ _ hm he hf (by simpa using hv), exits_append,
        constructed_append, (exit_lists _ _).1, constructed_nil _ (exit_lists _ _).2]
      exact ⟨_, rfl, rfl⟩
    obtain ⟨h1, h2, impl1, h3, h4⟩ :=
      clear_keeps_lists (fresh_mesh edge_func face_func vertex_func) env.clear
    rw [init_all_lists _ _ _ _ hm he hf hv] at hfail ⊢
    split at hfail
    · rename_i hc
      rw [if_pos hc]
      simp only [exits_append, constructed_append, h3, (exit_lists _ _).1,
        constructed_nil _ (exit_lists _ _).2, constructed_nil _ h2, h4]
      simp only [exits, h1]
      exact ⟨_, rfl, rfl⟩
    · rw [h3] at hfail
      cases hfail
  obtain ⟨impl, h1, h2⟩ := key
  rw [h1, h2]
  exact ⟨rfl, count_lists_of impl⟩

/-- C8 at a `gb_mesh_init` whose vertex list cannot be constructed: the edge
list and the face list are torn down, once each. -/
theorem init_failure_teardown_witness :
    (gb_mesh_init 10 20 30 { ex_env with vertices := false }).mesh = none ∧
    exits (gb_mesh_init 10 20 30 { ex_env with vertices := false }).trace
      = [Kind.edge, Kind.face] ∧
    exits (gb_mesh_init 10 20 30 { ex_env with vertices := false }).trace
      = constructed (gb_mesh_init 10 20 30 { ex_env with vertices := false }).trace ∧
    ∀ k : Kind,
      (exits (gb_mesh_init 10 20 30 { ex_env with vertices := false }).trace).count k
        = if k ∈ constructed (gb_mesh_init 10 20 30 { ex_env with vertices := false }).trace
          then 1 else 0 :=
  ⟨by decide, by decide,
    init_failure_teardown 10 20 30 { ex_env with vertices := false } (by decide)⟩

/-! ## C9 -/

/-- C9: for every non-null mesh, `gb_mesh_exit` hands every constructed list to
its teardown exactly once, whatever the answers to the makes of its
`gb_mesh_clear` are, hence whether that call succeeds or fails; the lists torn
down do not depend on those answers.  (`gb_mesh_exit` returns nothing, so it
has no way to report a failure.) -/
theorem exit_tears_down_every_list (impl : gb_mesh_impl_t) (a b : Alloc) :
    exits (gb_mesh_exit (some impl) a).trace = lists_of impl ∧
    (∀ k : Kind, (exits (gb_mesh_exit (some impl) a).trace).count k
        = if k ∈ lists_of impl then 1 else 0) ∧
    exits (gb_mesh_exit (some impl) a).trace = exits (gb_mesh_exit (some impl) b).trace := by
  rw [(exit_lists impl a).1, (exit_lists impl b).1]
  exact ⟨rfl, count_lists_of impl, rfl⟩

/-! ## C10 -/

theorem base_loop_is_base (el : EdgeList) (fl : FaceList) (vl : VertexList)
    (v l r e : Handle) (h : l ≠ r) :
    is_base (base_loop el fl vl v l r e) ∧ refs_live (base_loop el fl vl v l r e) = true := by
  simp [is_base, refs_live, ref_live, base_loop, h]

theorem emptied_is_empty (el : EdgeList) (fl : FaceList) (vl : VertexList) :
    is_empty (emptied el fl vl) ∧ refs_live (emptied el fl vl) = true := by
  simp [is_empty, refs_live, emptied]

/-- One `gb_mesh_clear` on a mesh with three lists, the answers respecting the
list contract, ends in the base state or in the degenerate-empty state. -/
theorem clear_step (el : EdgeList) (fl : FaceList) (vl : VertexList) (a : Alloc)
    (hfresh : a.fresh) :
    ∃ impl, (gb_mesh_clear (some (full el fl vl)) a).mesh = some impl ∧
      (is_base impl ∨ is_empty impl) ∧ refs_live impl = true := by
  rcases clear_full el fl vl a with ⟨v, l, r, e, h1, -, -, h4, -⟩ | ⟨k, -, -, h4⟩
  · rw [h1] at hfresh
    have h := base_loop_is_base el fl vl v l r e (fresh_faces v l r e hfresh)
    exact ⟨_, h4, Or.inl h.1, h.2⟩
  · have h := emptied_is_empty el fl vl
    exact ⟨_, h4, Or.inr h.1, h.2⟩

/-- Both the base state and the degenerate-empty state have three lists. -/
theorem full_of_base_or_empty (impl : gb_mesh_impl_t) (h : is_base impl ∨ is_empty impl) :
    ∃ el fl vl, impl = full el fl vl := by
  rcases impl with ⟨_ | el, _ | fl, _ | vl⟩ <;>
    first
      | exact ⟨_, _, _, rfl⟩
      | (exfalso; rcases h with h | h <;> simp [is_base, is_empty] at h)

/-- A run of `gb_mesh_clear` calls that starts in the base or the
degenerate-empty state ends in one of the two. -/
theorem clears_base_or_empty (rounds : List Alloc) (hfresh : ∀ a ∈ rounds, a.fresh) :
    ∀ impl0 : gb_mesh_impl_t, (is_base impl0 ∨ is_empty impl0) → refs_live impl0 = true →
      ∃ impl, clears (some impl0) rounds = some impl ∧
        (is_base impl ∨ is_empty impl) ∧ refs_live impl = true := by
  induction rounds with
  | nil => exact fun impl0 h0 h1 => ⟨impl0, rfl, h0, h1⟩
  | cons a rest ih =>
    intro impl0 h0 _
    obtain ⟨el, fl, vl, rfl⟩ := full_of_base_or_empty impl0 h0
    obtain ⟨impl1, h1, h2, h3⟩ := clear_step el fl vl a (hfresh a (List.mem_cons_self a rest))
    obtain ⟨impl, h4, h5⟩ :=
      ih (fun b hb => hfresh b (List.mem_cons_of_mem a hb)) impl1 h2 h3
    refine ⟨impl, ?_, h5⟩
    rw [← h4, ← h1]
    rfl

/-- C10: every state reached from a successful `gb_mesh_init` by any finite run
of `gb_mesh_clear` calls, whichever makes fail (the answered ones respecting
the list contract), is the base state or the degenerate-empty state, and every
reference of every live edge names a live entity of the same mesh; no state
with only some of the four entities, or with an unset or dead reference, is
reached. -/
theorem reachable_states_base_or_empty (edge_func face_func vertex_func : ItemFunc)
    (env : Env) (impl0 : gb_mesh_impl_t)
    (hinit : (gb_mesh_init edge_func face_func vertex_func env).mesh = some impl0)
    (hfresh0 : env.clear.fresh) (rounds : List Alloc) (hfresh : ∀ a ∈ rounds, a.fresh) :
    ∃ impl, clears (some impl0) rounds = some impl ∧
      (is_base impl ∨ is_empty impl) ∧ refs_live impl = true := by
  obtain ⟨v, l, r, e, h1, rfl⟩ := init_some edge_func face_func vertex_func env impl0 hinit
  rw [h1] at hfresh0
  have h := base_loop_is_base { func := edge_func, items := [] }
    { func := face_func, items := [] } { func := vertex_func, items := [] } v l r e
    (fresh_faces v l r e hfresh0)
  exact clears_base_or_empty rounds hfresh _ (Or.inl h.1) h.2

/-- C10 at a concrete run: `gb_mesh_init`, then a `gb_mesh_clear` that
succeeds, then one whose edge make fails; the run ends degenerate-empty. -/
theorem reachable_states_base_or_empty_witness :
    (gb_mesh_init 10 20 30 ex_env).mesh = some ex_base ∧ ex_env.clear.fresh ∧
    (∀ a ∈ [ex_alloc, ex_alloc_no_edge], a.fresh) ∧
    is_base ex_base ∧ ¬ is_empty ex_base ∧
    clears (some ex_base) [ex_alloc, ex_alloc_no_edge]
      = some { edges := some { func := 10, items := [] },
               faces := some { func := 20, items := [] },
               vertices := some { func := 30, items := [] } } ∧
    ∃ impl, clears (some ex_base) [ex_alloc, ex_alloc_no_edge] = some impl ∧
      (is_base impl ∨ is_empty impl) ∧ refs_live impl = true :=
  ⟨by decide, by decide, by decide, by decide, by decide, by decide,
    reachable_states_base_or_empty 10 20 30 ex_env ex_base (by decide) (by decide)
      [ex_alloc, ex_alloc_no_edge] (by decide)⟩

/-- Two pairs of different handles are matched by a renaming. -/
theorem exists_perm_pair (l r l1 r1 : Handle) (h : l ≠ r) (h1 : l1 ≠ r1) :
    ∃ p : Equiv.Perm Handle, p l = l1 ∧ p r = r1 := by
  refine ⟨(Equiv.swap l l1).trans (Equiv.swap (Equiv.swap l l1 r) r1), ?_, ?_⟩
  · have hne : l1 ≠ Equiv.swap l l1 r := by
      intro hc
      have : Equiv.swap l l1 l = Equiv.swap l l1 r := by
        rw [Equiv.swap_apply_left]; exact hc
      exact h ((Equiv.swap l l1).injective this)
    simp only [Equiv.trans_apply, Equiv.swap_apply_left]
    exact Equiv.swap_apply_of_ne_of_ne hne h1
  · simp only [Equiv.trans_apply, Equiv.swap_apply_left]

/-- Base loops over the same lists are renamings of each other. -/
theorem base_loop_rename (el : EdgeList) (fl : FaceList) (vl : VertexList)
    (v l r e v1 l1 r1 e1 : Handle) (h : l ≠ r) (h1 : l1 ≠ r1) :
    ∃ pv pf pe : Equiv.Perm Handle,
      rename pv pf pe (base_loop el fl vl v l r e) = base_loop el fl vl v1 l1 r1 e1 := by
  obtain ⟨pf, hl, hr⟩ := exists_perm_pair l r l1 r1 h h1
  refine ⟨Equiv.swap v v1, pf, Equiv.swap e e1, ?_⟩
  simp [rename, rename_edge, base_loop, hl, hr]

/-! ## C11 -/

/-- C11: for every mesh whose three lists are constructed, if two consecutive
`gb_mesh_clear` calls both return true (the answers respecting the list
contract), the state after the second has the structure of the state after the
first: both are base states (one vertex, two different faces, one edge with
origin and destination the vertex and the two faces on its sides), with the
same cardinalities, and the second is the first with its handles renamed. -/
theorem clear_twice_same_shape (el : EdgeList) (fl : FaceList) (vl : VertexList)
    (a b : Alloc) (impl1 impl2 : gb_mesh_impl_t) (ha : a.fresh) (hb : b.fresh)
    (hok1 : (gb_mesh_clear (some (full el fl vl)) a).ok = true)
    (h1 : (gb_mesh_clear (some (full el fl vl)) a).mesh = some impl1)
    (hok2 : (gb_mesh_clear (some impl1) b).ok = true)
    (h2 : (gb_mesh_clear (some impl1) b).mesh = some impl2) :
    is_base impl1 ∧ is_base impl2 ∧
    EntityList.count impl1.vertices = 1 ∧ EntityList.count impl2.vertices = 1 ∧
    EntityList.count impl1.faces = 2 ∧ EntityList.count impl2.faces = 2 ∧
    EntityList.count impl1.edges = 1 ∧ EntityList.count impl2.edges = 1 ∧
    ∃ pv pf pe : Equiv.Perm Handle, rename pv pf pe impl1 = impl2 := by
  rcases clear_full el fl vl a with ⟨v, l, r, e, ha1, -, -, h4, -⟩ | ⟨k, -, h3, -⟩
  swap
  · rw [h3] at hok1
    cases hok1
  rw [h4] at h1
  cases h1
  rw [ha1] at ha
  have hlr := fresh_faces v l r e ha
  have hfull : base_loop el fl vl v l r e
      = full { func := el.func,
               items := [(e, { org := some v, dst := some v,
                               lface := some l, rface := some r })] }
          { func := fl.func, items := [(r, ()), (l, ())] }
          { func := vl.func, items := [(v, ())] } := rfl
  rw [hfull] at hok2 h2
  rcases clear_full _ _ _ b with ⟨v1, l1, r1, e1, hb1, -, -, h5, -⟩ | ⟨k, -, h3, -⟩
  swap
  · rw [h3] at hok2
    cases hok2
  rw [h5] at h2
  cases h2
  rw [hb1] at hb
  have hlr1 := fresh_faces v1 l1 r1 e1 hb
  refine ⟨(base_loop_is_base el fl vl v l r e hlr).1,
    (base_loop_is_base _ _ _ v1 l1 r1 e1 hlr1).1, rfl, rfl, rfl, rfl, rfl, rfl, ?_⟩
  exact base_loop_rename el fl vl v l r e v1 l1 r1 e1 hlr hlr1

/-- C11 at a mesh extended beyond the base loop, cleared twice with different
answers: vertex `1` becomes `7`, the faces `2`, `3` become `3`, `9`, the edge
keeps its handle `4`. -/
theorem clear_twice_same_shape_witness :
    ex_alloc.fresh ∧ ex_alloc_again.fresh ∧
    (gb_mesh_clear (some ex_extended) ex_alloc).ok = true ∧
    (gb_mesh_clear (some ex_extended) ex_alloc).mesh = some ex_base ∧
    (gb_mesh_clear (some ex_base) ex_alloc_again).ok = true ∧
    (gb_mesh_clear (some ex_base) ex_alloc_again).mesh
      = some (base_loop { func := 10, items := [] } { func := 20, items := [] }
          { func := 30, items := [] } 7 3 9 4) ∧
    is_base ex_base ∧
    is_base (base_loop { func := 10, items := [] } { func := 20, items := [] }
      { func := 30, items := [] } 7 3 9 4) ∧
    EntityList.count ex_base.vertices = 1 ∧
    EntityList.count (base_loop { func := 10, items := [] } { func := 20, items := [] }
      { func := 30, items := [] } 7 3 9 4).vertices = 1 ∧
    EntityList.count ex_base.faces = 2 ∧
    EntityList.count (base_loop { func := 10, items := [] } { func := 20, items := [] }
      { func := 30, items := [] } 7 3 9 4).faces = 2 ∧
    EntityList.count ex_base.edges = 1 ∧
    EntityList.count (base_loop { func := 10, items := [] } { func := 20, items := [] }
      { func := 30, items := [] } 7 3 9 4).edges = 1 ∧
    ∃ pv pf pe : Equiv.Perm Handle,
      rename pv pf pe ex_base
        = base_loop { func := 10, items := [] } { func := 20, items := [] }
            { func := 30, items := [] } 7 3 9 4 :=
  ⟨by decide, by decide, by decide, by decide, by decide, by decide,
    clear_twice_same_shape
      { func := 10, items := [(8, { org := some 5, dst := some 1,
                                    lface := some 6, rface := some 3 }),
                              (4, { org := some 1, dst := some 5,
                                    lface := some 2, rface := some 3 })] }
      { func := 20, items := [(6, ()), (3, ()), (2, ())] }
      { func := 30, items := [(5, ()), (1, ())] } ex_alloc ex_alloc_again ex_base _
      (by decide) (by decide) (by decide) (by decide) (by decide) (by decide)⟩

/-- The guarded clears neither make nor kill. -/
theorem kills_sound_clear_calls (impl : gb_mesh_impl_t) (t : List Event) :
    kills_sound (clear_calls impl ++ t) = kills_sound t := by
  rcases impl with ⟨_ | el, _ | fl, _ | vl⟩ <;> rfl

/-! ## C12 -/

/-- C12: in every execution of `gb_mesh_clear` (the answers respecting the list
contract) every kill meets the kill precondition: its handle was returned by
an earlier make on the same list in this call, is live when the kill is
issued, and has not been killed before; on failure every entity made is killed
exactly once (so are the left and the right face), and nothing is killed when
the call succeeds. -/
theorem clear_kills_sound (mesh : Option gb_mesh_impl_t) (a : Alloc) (hfresh : a.fresh) :
    kills_sound (gb_mesh_clear mesh a).trace = true ∧
    (∀ x ∈ kills (gb_mesh_clear mesh a).trace, (kills (gb_mesh_clear mesh a).trace).count x = 1) ∧
    ((gb_mesh_clear mesh a).ok = false →
      ∀ x ∈ made (gb_mesh_clear mesh a).trace,
        (kills (gb_mesh_clear mesh a).trace).count x = 1) ∧
    ((gb_mesh_clear mesh a).ok = true → kills (gb_mesh_clear mesh a).trace = []) := by
  cases mesh with
  | none => refine ⟨rfl, fun x hx => ?_, fun _ x hx => ?_, fun _ => rfl⟩ <;> cases hx
  | some impl =>
    have h := clear_path impl a
    generalize gb_mesh_clear (some impl) a = res at h
    rcases a with ⟨av, al, ar, ae⟩
    cases h <;>
      simp only [kills_sound_clear_calls, kills_append, made_append, kills_clear_calls,
        made_clear_calls, List.nil_append]
    case no_vertex_list => simp [kills_sound, kills_sound_from, kills, made]
    case vertex_failed => simp [kills_sound, kills_sound_from, kills, made]
    case no_face_list => simp [kills_sound, kills_sound_from, kills, made]
    case lface_failed => simp [kills_sound, kills_sound_from, kills, made]
    case rface_failed => simp [kills_sound, kills_sound_from, kills, made]
    case no_edge_list v l r _ _ _ h4 h5 _ =>
      simp only at h4 h5
      subst h4 h5
      have hrl : r ≠ l := hfresh
      have hlr : l ≠ r := fun h => hrl h.symm
      simp [kills_sound, kills_sound_from, kills, made, hrl, hlr]
    case edge_failed v l r _ _ _ h4 h5 _ _ =>
      simp only at h4 h5
      subst h4 h5
      have hrl : r ≠ l := hfresh
      have hlr : l ≠ r := fun h => hrl h.symm
      simp [kills_sound, kills_sound_from, kills, made, hrl, hlr]
    case all_made => simp [kills_sound, kills_sound_from, kills, made]

/-- C12 at the base loop, the edge make failing: vertex `1`, left face `2` and
right face `3` are made, then killed once each; a kill of a handle that no
make returned, or a second kill of the same handle, does not pass the check. -/
theorem clear_kills_sound_witness :
    ex_alloc_no_edge.fresh ∧
    kills (gb_mesh_clear (some ex_base) ex_alloc_no_edge).trace
      = [(Kind.vertex, 1), (Kind.face, 2), (Kind.face, 3)] ∧
    kills_sound [Event.list_kill Kind.face true 2 true] = false ∧
    kills_sound [Event.list_make Kind.face true (some 2), Event.list_kill Kind.face true 2 true,
                 Event.list_kill Kind.face true 2 true] = false ∧
    kills_sound (gb_mesh_clear (some ex_base) ex_alloc_no_edge).trace = true ∧
    (∀ x ∈ kills (gb_mesh_clear (some ex_base) ex_alloc_no_edge).trace,
      (kills (gb_mesh_clear (some ex_base) ex_alloc_no_edge).trace).count x = 1) ∧
    ((gb_mesh_clear (some ex_base) ex_alloc_no_edge).ok = false →
      ∀ x ∈ made (gb_mesh_clear (some ex_base) ex_alloc_no_edge).trace,
        (kills (gb_mesh_clear (some ex_base) ex_alloc_no_edge).trace).count x = 1) ∧
    ((gb_mesh_clear (some ex_base) ex_alloc_no_edge).ok = true →
      kills (gb_mesh_clear (some ex_base) ex_alloc_no_edge).trace = []) :=
  ⟨by decide, by decide, by decide, by decide,
    clear_kills_sound (some ex_base) ex_alloc_no_edge (by decide)⟩

theorem list_clears_append (s t : List Event) :
    list_clears (s ++ t) = list_clears s ++ list_clears t := by
  simp [list_clears]

theorem make_calls_append (s t : List Event) :
    make_calls (s ++ t) = make_calls s ++ make_calls t := by
  simp [make_calls]

theorem edge_sets_append (s t : List Event) :
    edge_sets (s ++ t) = edge_sets s ++ edge_sets t := by
  simp [edge_sets]

/-- The guarded clears: one clear per list the mesh has, nothing else. -/
theorem clear_calls_only_clears (impl : gb_mesh_impl_t) :
    list_clears (clear_calls impl) = lists_of impl ∧ make_calls (clear_calls impl) = [] ∧
    edge_sets (clear_calls impl) = [] ∧ ∀ ev ∈ clear_calls impl, stage ev = 0 := by
  rcases impl with ⟨_ | el, _ | fl, _ | vl⟩ <;>
    simp [clear_calls, lists_of, present, list_clears, make_calls, edge_sets, stage]

/-- Calls of stage `0` followed by calls in the order of their stages, all of
stage `1` or later, are in the order of their stages. -/
theorem stages_sorted_append (s t : List Event) (hs : ∀ ev ∈ s, stage ev = 0)
    (ht : (t.map stage).Pairwise (fun i j => i ≤ j)) :
    ((s ++ t).map stage).Pairwise (fun i j => i ≤ j) := by
  rw [List.map_append, List.pairwise_append]
  refine ⟨?_, ht, ?_⟩
  · rw [List.pairwise_map]
    exact List.pairwise_of_forall_mem_list (fun x hx y hy => by rw [hs x hx, hs y hy])
  · intro i hi j _
    obtain ⟨ev, hev, rfl⟩ := List.mem_map.1 hi
    rw [hs ev hev]
    exact Nat.zero_le j

/-! ## C13 -/

/-- C13: `gb_mesh_clear` first clears the lists of the mesh (all three when all
three are constructed) and only then attempts the makes, in the fixed order
vertex, left face, right face, edge, stopping at the first make that returns
nothing: every make but the last attempted returned an entity.  The edge
references are set only after all four makes have returned an entity, and
after them. -/
theorem clear_call_order (impl : gb_mesh_impl_t) (a : Alloc) :
    list_clears (gb_mesh_clear (some impl) a).trace = lists_of impl ∧
    ((gb_mesh_clear (some impl) a).trace.map stage).Pairwise (fun i j => i ≤ j) ∧
    (make_calls (gb_mesh_clear (some impl) a).trace).map (fun c => c.1)
      <+: [Kind.vertex, Kind.face, Kind.face, Kind.edge] ∧
    (∀ c ∈ (make_calls (gb_mesh_clear (some impl) a).trace).dropLast, c.2 ≠ none) ∧
    (edge_sets (gb_mesh_clear (some impl) a).trace ≠ [] →
      ∃ v l r e : Handle,
        make_calls (gb_mesh_clear (some impl) a).trace
          = [(Kind.vertex, some v), (Kind.face, some l), (Kind.face, some r),
             (Kind.edge, some e)] ∧
        edge_sets (gb_mesh_clear (some impl) a).trace
          = [(Field.org, e, v), (Field.dst, e, v), (Field.lface, e, l),
             (Field.rface, e, r)]) := by
  have h := clear_path impl a
  generalize gb_mesh_clear (some impl) a = res at h
  obtain ⟨c1, c2, c3, c4⟩ := clear_calls_only_clears impl
  cases h <;>
    simp only [list_clears_append, make_calls_append, edge_sets_append, c1, c2, c3,
      List.nil_append] <;>
    refine ⟨by simp [list_clears], stages_sorted_append _ _ c4 (by simp [stage]), ?_, ?_, ?_⟩ <;>
    simp [make_calls, edge_sets]
  rename_i el fl vl v l r e _ _
  exact ⟨v, l, r, e, ⟨rfl, rfl, rfl, rfl⟩, ⟨rfl, rfl⟩, ⟨rfl, rfl⟩, rfl, rfl⟩

/-- C13 on a mesh with three lists: with every make answered the calls are the
three clears, the four makes, the four setters; with the left face make
failing no further make is attempted and no reference is set. -/
theorem clear_call_order_witness :
    (gb_mesh_clear (some ex_extended) ex_alloc).trace.map stage
      = [0, 0, 0, 1, 1, 1, 1, 2, 2, 2, 2] ∧
    make_calls (gb_mesh_clear (some ex_extended)
        { vertex := some 1, lface := none, rface := some 3, edge := some 4 }).trace
      = [(Kind.vertex, some 1), (Kind.face, none)] ∧
    edge_sets (gb_mesh_clear (some ex_extended)
        { vertex := some 1, lface := none, rface := some 3, edge := some 4 }).trace = [] ∧
    list_clears (gb_mesh_clear (some ex_extended) ex_alloc).trace
      = [Kind.edge, Kind.face, Kind.vertex] ∧
    list_clears (gb_mesh_clear (some ex_extended) ex_alloc).trace = lists_of ex_extended ∧
    ((gb_mesh_clear (some ex_extended) ex_alloc).trace.map stage).Pairwise
      (fun i j => i ≤ j) ∧
    (make_calls (gb_mesh_clear (some ex_extended) ex_alloc).trace).map (fun c => c.1)
      <+: [Kind.vertex, Kind.face, Kind.face, Kind.edge] ∧
    (∀ c ∈ (make_calls (gb_mesh_clear (some ex_extended) ex_alloc).trace).dropLast,
      c.2 ≠ none) ∧
    (edge_sets (gb_mesh_clear (some ex_extended) ex_alloc).trace ≠ [] →
      ∃ v l r e : Handle,
        make_calls (gb_mesh_clear (some ex_extended) ex_alloc).trace
          = [(Kind.vertex, some v), (Kind.face, some l), (Kind.face, some r),
             (Kind.edge, some e)] ∧
        edge_sets (gb_mesh_clear (some ex_extended) ex_alloc).trace
          = [(Field.org, e, v), (Field.dst, e, v), (Field.lface, e, l),
             (Field.rface, e, r)]) :=
  ⟨by decide, by decide, by decide, by decide,
    clear_call_order ex_extended ex_alloc⟩

/-! ## C14 -/

/-- C14, at an input on which the code departs from it: `gb_mesh_init` whose
face list cannot be constructed hands a mesh with a null face list and a null
vertex list to `gb_mesh_exit`; the `gb_mesh_clear` in there skips the clears of
the two null lists, but issues the vertex make on the null vertex list. -/
theorem clear_makes_on_null_list :
    (gb_mesh_init 10 20 30 { ex_env with faces := false }).mesh = none ∧
    (gb_mesh_init 10 20 30 { ex_env with faces := false }).trace
      = [Event.malloc true, Event.list_init Kind.edge 10 true,
         Event.list_init Kind.face 20 false, Event.list_clear Kind.edge,
         Event.list_make Kind.vertex false none, Event.list_exit Kind.edge 0, Event.free] ∧
    (gb_mesh_clear
        (some { edges := some { func := 10, items := [] }, faces := none, vertices := none })
        ex_alloc).trace
      = [Event.list_clear Kind.edge, Event.list_make Kind.vertex false none] := by
  decide

/-! ## C15 -/

/-- C15: called with a null mesh, `gb_mesh_clear` returns false and
`gb_mesh_exit` returns without effect; neither issues any call (no clear,
make, kill or teardown of a list, no release of a container). -/
theorem null_mesh_no_calls (a : Alloc) :
    (gb_mesh_clear none a).ok = false ∧ (gb_mesh_clear none a).mesh = none ∧
    (gb_mesh_clear none a).trace = [] ∧
    (gb_mesh_exit none a).impl = none ∧ (gb_mesh_exit none a).trace = [] :=
  ⟨rfl, rfl, rfl, rfl, rfl⟩

end GBox
